import Mathlib

/-!
Verification of the nile-readiness-test program (nrt.py) against its
natural-language specification.  The Python source is shallowly embedded:
pure computations (netmask-to-prefix, CIDR parsing, summary counting,
command-string construction) become Lean functions; the orchestration of
main, restore_state and the per-server DHCP probe become functions from an
explicit environment (outcomes of subprocess calls, captured packets,
random draws) to traces of events and results.  Machine integers do not
overflow in any modelled computation, so Nat is used directly; fallible
steps return Except.
-/

/-! ## IPv4 parsing, mirroring the uses of the Python ipaddress module

String splitting and decimal parsing are implemented by structural
recursion over the character list of the string, so that every parse of a
concrete input evaluates inside the kernel. -/

/-- Split a character list at every occurrence of the separator. -/
def splitAux (sep : Char) : List Char → List Char → List (List Char)
  | [], acc => [acc.reverse]
  | c :: rest, acc =>
      if c = sep then acc.reverse :: splitAux sep rest []
      else splitAux sep rest (c :: acc)

/-- Split a string on a separator character, like Python split. -/
def splitOnChar (sep : Char) (s : String) : List String :=
  (splitAux sep s.data []).map String.mk

/-- Accumulate decimal digits; any non-digit rejects the numeral. -/
def decOfCharsAux : List Char → Nat → Option Nat
  | [], acc => some acc
  | c :: rest, acc =>
      if c.isDigit then decOfCharsAux rest (acc * 10 + (c.toNat - 48)) else none

/-- Parse a non-empty all-digit string, like Python int for our inputs. -/
def strToNat (s : String) : Option Nat :=
  match s.data with
  | [] => none
  | _ => decOfCharsAux s.data 0

/-- One dotted-quad octet: a decimal numeral no larger than 255. -/
def parseOctet (s : String) : Option Nat :=
  match strToNat s with
  | some n => if n ≤ 255 then some n else none
  | none => none

/-- Parse a dotted-quad IPv4 address into its 32-bit numeric value. -/
def parseIPv4 (s : String) : Option Nat :=
  match splitOnChar '.' s with
  | [a, b, c, d] => do
      let a ← parseOctet a
      let b ← parseOctet b
      let c ← parseOctet c
      let d ← parseOctet d
      pure (((a * 256 + b) * 256 + c) * 256 + d)
  | _ => none

/-- Render a 32-bit numeric IPv4 address as a dotted quad, as Python
str(IPv4Address) does. -/
def ipToString (n : Nat) : String :=
  toString (n / 2 ^ 24 % 256) ++ "." ++ toString (n / 2 ^ 16 % 256) ++ "." ++
    toString (n / 2 ^ 8 % 256) ++ "." ++ toString (n % 256)

/-- The prefix length of a contiguous netmask value: the unique p with
mask = 2^32 - 2^(32-p), if any. -/
def maskToPrefix (mask : Nat) : Option Nat :=
  (List.range 33).find? (fun p => mask = 2 ^ 32 - 2 ^ (32 - p))

/-- Embedding of the expression
ipaddress.IPv4Network(f0.0.0.0/{netmask}).prefixlen
used at nrt.py:653 (configure_interface) and nrt.py:1779 (main).  The
hostmask spelling accepted by Python for other inputs is not modelled;
the claims only concern dotted netmask inputs. -/
def prefixlenOfNetmask (netmask : String) : Option Nat :=
  match parseIPv4 netmask with
  | some m => maskToPrefix m
  | none => none

/-- An IPv4 network as produced by ipaddress.IPv4Network in strict mode:
the address with all host bits zero, plus a prefix length. -/
structure IPv4Net where
  netaddr : Nat
  prefixlen : Nat
deriving DecidableEq, Repr

/-- Embedding of ipaddress.IPv4Network(s) (strict): dotted address, slash,
integer prefix at most 32, host bits all zero. -/
def parseCIDR (s : String) : Option IPv4Net :=
  match splitOnChar '/' s with
  | [a, p] =>
      match parseIPv4 a, strToNat p with
      | some addr, some pl =>
          if pl ≤ 32 ∧ addr % 2 ^ (32 - pl) = 0 then some ⟨addr, pl⟩ else none
      | _, _ => none
  | _ => none

/-! ## add_loopbacks (nrt.py:709-734) -/

/-- The three commands add_loopbacks issues for one (name, subnet) pair:
create the dummy interface, assign network-address + 1 at the prefix
length of the subnet, bring the interface up (nrt.py:725-732). -/
def loopbackCmds (name subnet : String) : Option (List (List String)) :=
  match parseCIDR subnet with
  | some net =>
      some
        [["ip", "link", "add", "dummy_" ++ name, "type", "dummy"],
         ["ip", "addr", "add",
            ipToString (net.netaddr + 1) ++ "/" ++ toString net.prefixlen,
            "dev", "dummy_" ++ name],
         ["ip", "link", "set", "dev", "dummy_" ++ name, "up"]]
  | none => none

/-! ## print_test_summary (nrt.py:1697-1728) -/

/-- Labels excluded from the printed summary (nrt.py:1714). -/
def excluded_tests : List String := ["Static Default Route Configuration"]

/-- One iteration of the summary loop (nrt.py:1716-1725): an excluded
label leaves both counters unchanged; otherwise the total is incremented
and the success count is incremented when the outcome is true. -/
def summaryStep (acc : Nat × Nat) (tr : String × Bool) : Nat × Nat :=
  if excluded_tests.contains tr.1 then acc
  else (acc.1 + (if tr.2 then 1 else 0), acc.2 + 1)

/-- The (success_count, total_count) pair computed by print_test_summary
over the results sequence. -/
def summaryCounts (test_results : List (String × Bool)) : Nat × Nat :=
  test_results.foldl summaryStep (0, 0)

/-- The printed success rate (nrt.py:1727): guarded division, 0 when the
denominator is 0, so the division by zero is never evaluated. -/
def success_rate (test_results : List (String × Bool)) : Rat :=
  let sc := summaryCounts test_results
  if sc.2 > 0 then ((sc.1 : Rat) / (sc.2 : Rat)) * 100 else 0

/-! ## record_state / restore_state (nrt.py:456-555)

Subprocess execution is modelled by an environment assigning a return
code to every command line.  runCmd with check=True raises (returns
Except.error) on a non-zero return code; with check=False it never
raises, exactly as in the source (nrt.py:274-277).  The two direct file
writes inside restore_state (the daemons file and resolv.conf) are
modelled as infallible effects, since only subprocess outcomes are
claimed about. -/

/-- The snapshot produced by record_state (nrt.py:456-480). -/
structure HostState where
  addrs : List String
  routes : List String
  daemons : String
  resolv : String
  frr_enabled : Bool

/-- Environment assigning a return code to each executed command line. -/
structure CmdEnv where
  rc : List String → Int

/-- Embedding of runCmd restricted to what restore_state observes: with
check=True a non-zero return code raises (error carries the failing
command), otherwise the return code is delivered. -/
def runCmd (env : CmdEnv) (cmd : List String) (check : Bool) :
    Except (List String) Int :=
  if check && env.rc cmd != 0 then Except.error cmd else Except.ok (env.rc cmd)

/-- The loop re-adding every recorded address (nrt.py:524-525), each add
executed with check=False. -/
def addAddrs (env : CmdEnv) (iface : String) : List String → Except (List String) Unit
  | [] => Except.ok ()
  | a :: rest => do
      let _ ← runCmd env ["ip", "addr", "add", a, "dev", iface] false
      addAddrs env iface rest

/-- Embedding of restore_state (nrt.py:482-555), step for step and in
source order.  Every runCmd call carries the check flag of the source:
only the address flush (nrt.py:510) is check=True. -/
def restore_state (env : CmdEnv) (iface : String) (st : HostState) :
    Except (List String) Unit := do
  let _ ← runCmd env ["ip", "link", "delete", "dummy_mgmt1"] false
  let _ ← runCmd env ["ip", "link", "delete", "dummy_mgmt2"] false
  let _ ← runCmd env ["ip", "link", "delete", "dummy_client"] false
  let _ ← runCmd env ["ip", "addr", "flush", "dev", iface] true
  let _ ←
    if st.addrs.isEmpty then do
      let _ ← runCmd env ["ip", "addr", "add", "0.0.0.0/0", "dev", iface] false
      runCmd env ["ip", "link", "set", "dev", iface, "up"] false
    else pure 0
  let _ ← addAddrs env iface st.addrs
  let _ ← runCmd env ["ip", "link", "set", "dev", iface, "up"] false
  let _ ← runCmd env ["ip", "route", "flush", "default"] false
  -- write of /etc/frr/daemons with st.daemons: modelled as infallible
  let _ ← runCmd env ["rm", "-f", "/etc/frr/frr.conf"] false
  -- write of /etc/resolv.conf with st.resolv: modelled as infallible
  let _ ← runCmd env ["systemctl", "stop", "frr"] false
  let _ ← runCmd env ["systemctl", "disable", "frr"] false
  pure ()

/-! ## sniff_ospf_hello (nrt.py:737-771) and configure_ospf (nrt.py:774-887) -/

/-- The fields of a captured OSPF hello packet that sniff_ospf_hello
reads.  The area is carried as a string: scapy renders OSPF_Hdr.area in
dotted form and the source deliberately never casts it (nrt.py:770). -/
structure OspfPkt where
  src : String
  area : String
  hellointerval : Nat
  deadinterval : Nat

/-- The timeout default of sniff_ospf_hello (nrt.py:737). -/
def sniff_ospf_hello_timeout : Nat := 60

/-- Embedding of sniff_ospf_hello: the argument is the packet list the
capture returned (count=1, bounded by the timeout).  An empty capture is
fatal, sys.exit(1) (nrt.py:758-760); otherwise the source address, the
area verbatim, and the two intervals of the first packet are returned
(nrt.py:762-771). -/
def sniff_ospf_hello (pkts : List OspfPkt) :
    Except Nat (String × String × Nat × Nat) :=
  match pkts with
  | [] => Except.error 1
  | p :: _ => Except.ok (p.src, p.area, p.hellointerval, p.deadinterval)

/-- The vtysh command line built by configure_ospf (nrt.py:820-830).  The
area parameter is interpolated verbatim into each network command. -/
def ospfVtyshCmds (iface ip : String) (pfx : Nat) (n1 n2 n3 : IPv4Net)
    (area : String) (hi di : Nat) : List String :=
  ["vtysh", "-c", "configure terminal", "-c", "router ospf",
   "-c", "network " ++ ip ++ "/" ++ toString pfx ++ " area " ++ area,
   "-c", "network " ++ ipToString n1.netaddr ++ "/" ++ toString n1.prefixlen
           ++ " area " ++ area,
   "-c", "network " ++ ipToString n2.netaddr ++ "/" ++ toString n2.prefixlen
           ++ " area " ++ area,
   "-c", "network " ++ ipToString n3.netaddr ++ "/" ++ toString n3.prefixlen
           ++ " area " ++ area,
   "-c", "exit", "-c", "interface " ++ iface,
   "-c", "ip ospf hello-interval " ++ toString hi,
   "-c", "ip ospf dead-interval " ++ toString di,
   "-c", "exit", "-c", "end", "-c", "write memory"]

/-! ## The per-server DHCP relay probe inside run_tests (nrt.py:1203-1443)

The probe is modelled per server by an environment recording the outcome
of each external interaction: the reachability ping, the structured
get_lease call, the offer flag of each of the two time-boxed captures,
the MAC used for the client, and the value drawn by
random.randint(1, 0xFFFFFFFF) for the fallback transaction id. -/

/-- The raw DISCOVER packet crafted for the fallback (nrt.py:1394-1398):
Ether to the broadcast MAC, IP from 0.0.0.0 to 255.255.255.255, UDP
68 to 67, BOOTP with the fresh transaction id, DHCP message-type
discover. -/
structure DiscoverPkt where
  etherDst : String
  etherSrc : String
  ipSrc : String
  ipDst : String
  sport : Nat
  dport : Nat
  chaddr : String
  xid : Nat
  flags : Nat
  msgType : String
deriving DecidableEq, Repr

/-- Build the DISCOVER packet exactly as nrt.py:1394-1398 does: the
client hardware address field carries the bytes of the client MAC. -/
def mkDiscover (clientMac : String) (xid : Nat) : DiscoverPkt :=
  { etherDst := "ff:ff:ff:ff:ff:ff", etherSrc := clientMac,
    ipSrc := "0.0.0.0", ipDst := "255.255.255.255", sport := 68, dport := 67,
    chaddr := clientMac, xid := xid, flags := 0x8000, msgType := "discover" }

/-- Externally observable steps of the per-server probe.  craftDiscover
is the in-memory construction of the fallback packet (nrt.py:1394-1398);
sendDiscover would be its transmission on the wire; nameError is an
unresolved-name exception raised at a call site (carrying the missing
name). -/
inductive DhcpEv where
  | ping
  | startCapture
  | getLease
  | joinCapture
  | craftDiscover (pkt : DiscoverPkt)
  | sendDiscover (pkt : DiscoverPkt)
  | nameError (missing : String)
deriving DecidableEq, Repr

/-- Environment of one per-server probe: outcomes of the external
interactions in source order. -/
structure DhcpEnv where
  pingOk : Bool
  leaseOk : Bool
  offer1 : Bool
  offer2 : Bool
  clientMac : String
  xid : Nat

/-- Embedding of the per-server probe control flow (nrt.py:1203-1443):
ping pre-check (skip on failure, nrt.py:1204-1209); first capture started
concurrently with the structured get_lease request (nrt.py:1327-1353); on
get_lease success the outcome is recorded true at once (nrt.py:1364-1366);
on get_lease failure the first capture is joined and its offer flag
decides (nrt.py:1375-1381); otherwise a fresh transaction id is drawn and
the raw broadcast DISCOVER is crafted (nrt.py:1388-1398) and the second
capture thread is started (nrt.py:1404-1414), but the transmit call
sendp(dhcp_discover, ...) at nrt.py:1422 raises NameError: the scapy
imports at nrt.py:33 bring in only sniff, sr1, send and Raw, and sendp
is bound nowhere else.  The except handler at nrt.py:1436 swallows the
exception and records failure unconditionally; the join at nrt.py:1425
and the offer check at nrt.py:1428 are never reached, so the offer flag
of the second capture (still running as a daemon thread, hence kept in
the environment) is never consulted.  Returns the event trace and the
recorded per-server outcome. -/
def dhcp_probe (env : DhcpEnv) : List DhcpEv × Bool :=
  if !env.pingOk then
    ([DhcpEv.ping], false)
  else if env.leaseOk then
    ([DhcpEv.ping, DhcpEv.startCapture, DhcpEv.getLease], true)
  else if env.offer1 then
    ([DhcpEv.ping, DhcpEv.startCapture, DhcpEv.getLease, DhcpEv.joinCapture],
     true)
  else
    ([DhcpEv.ping, DhcpEv.startCapture, DhcpEv.getLease, DhcpEv.joinCapture,
      DhcpEv.craftDiscover (mkDiscover env.clientMac env.xid),
      DhcpEv.startCapture, DhcpEv.nameError "sendp"],
     false)

/-! ## The main orchestration (nrt.py:1731-1812)

main is modelled as a trace of the named phases it executes together
with the process exit code.  The environment fixes the nondeterministic
outcomes that steer control flow between the termination modes named by
the claims: the OSPF hello capture result, the three upstream-router ping
attempts inside configure_ospf (nrt.py:869-885), and the outcome of the
initial DNS reachability block of run_tests whose failure is the only
sys.exit inside run_tests (nrt.py:1132-1137).  Failures of
configure_interface and configure_static_route are logged and non-fatal
in the source, so they do not appear in the control flow.  The body runs
inside try/finally (nrt.py:1760-1812): the finally block always calls
restore_state and then, since test_results is assigned (nrt.py:1783)
before any of the three fatal sites, print_test_summary. -/

/-- The phases of main that the claims talk about. -/
inductive Ev where
  | record
  | restoreEv
  | cfgIface
  | addLoop
  | staticRoute
  | resync
  | sniff
  | cfgOspf
  | showStatus
  | tests
  | summary
deriving BEq, DecidableEq, Repr

/-- The run environment: the captured hello packets, the outcomes of the
three router ping attempts in configure_ospf, and whether the initial
DNS reachability block of run_tests succeeded. -/
structure RunEnv where
  helloPkts : List OspfPkt
  routerPings : Nat → Bool
  initialPingOk : Bool

/-- Router reachability after the retry loop of configure_ospf
(nrt.py:865-879, max_retries = 3): reachable when any attempt succeeds. -/
def routerReachable (pings : Nat → Bool) : Bool :=
  pings 0 || pings 1 || pings 2

/-- The aggressive reset plus setup prefix of the try block
(nrt.py:1763-1787): restore, configure, loopbacks, static route - twice,
the second round followed by the scapy route resync. -/
def resetAndSetupEvents : List Ev :=
  [Ev.restoreEv, Ev.cfgIface, Ev.addLoop, Ev.staticRoute,
   Ev.restoreEv, Ev.cfgIface, Ev.addLoop, Ev.staticRoute, Ev.resync]

/-- Phases executed after the setup prefix, following the fatal-abort
structure: sniff_ospf_hello exits before configure_ospf is attempted
(nrt.py:1790); an unreachable router exits inside configure_ospf
(nrt.py:881-885); the run_tests initial-connectivity exit happens inside
the tests phase (nrt.py:1137). -/
def tryEvents (env : RunEnv) : List Ev :=
  match sniff_ospf_hello env.helloPkts with
  | Except.error _ => [Ev.sniff]
  | Except.ok _ =>
      if routerReachable env.routerPings then
        [Ev.sniff, Ev.cfgOspf, Ev.showStatus, Ev.tests]
      else
        [Ev.sniff, Ev.cfgOspf]

/-- The exit code the try block would raise via sys.exit, none when the
body completes normally. -/
def tryExit (env : RunEnv) : Option Nat :=
  match sniff_ospf_hello env.helloPkts with
  | Except.error c => some c
  | Except.ok _ =>
      if routerReachable env.routerPings then
        if env.initialPingOk then none else some 1
      else some 1

/-- The full trace of one run of main after record_state returned,
together with the process exit code: the try body up to normal completion
or the first sys.exit, then the unconditional finally block - one
restore_state call followed by print_test_summary (nrt.py:1805-1812). -/
def mainRun (env : RunEnv) : List Ev × Nat :=
  (Ev.record :: resetAndSetupEvents ++ tryEvents env ++ [Ev.restoreEv, Ev.summary],
   (tryExit env).getD 0)

/-- Number of restore_state invocations in a trace. -/
def countRestores (evs : List Ev) : Nat :=
  evs.count Ev.restoreEv

/-! ## Concrete instances used by witnesses and counterexamples -/

/-- Environment in which the address flush on eth0 returns a non-zero
code and every other command succeeds. -/
def flushFailEnv : CmdEnv :=
  ⟨fun cmd => if cmd = ["ip", "addr", "flush", "dev", "eth0"] then 1 else 0⟩

/-- Environment in which every command succeeds. -/
def allOkEnv : CmdEnv := ⟨fun _ => 0⟩

/-- A snapshot with one recorded address. -/
def sampleState : HostState :=
  { addrs := ["10.0.0.5/24"], routes := [], daemons := "", resolv := "",
    frr_enabled := false }

/-- A run in which a hello is captured, the router answers the first ping
and the initial DNS reachability block succeeds: the fully successful
termination mode. -/
def okRunEnv : RunEnv :=
  ⟨[⟨"10.0.0.1", "0.0.0.0", 10, 40⟩], fun _ => true, true⟩

/-- A run in which the hello capture times out with no packet. -/
def noHelloEnv : RunEnv := ⟨[], fun _ => true, true⟩

/-! ## Shared helper lemmas -/

/-- Bind on an ok value reduces. -/
theorem ok_bind {ε α β : Type} (a : α) (f : α → Except ε β) :
    (Except.ok a >>= f : Except ε β) = f a := rfl

/-- Pure for Except is ok. -/
theorem pure_except {ε α : Type} (a : α) :
    (pure a : Except ε α) = Except.ok a := rfl

/-- runCmd with check=False never raises. -/
theorem runCmd_nocheck (env : CmdEnv) (cmd : List String) :
    runCmd env cmd false = Except.ok (env.rc cmd) := rfl

/-- The address re-add loop never raises: every add is check=False. -/
theorem addAddrs_ok (env : CmdEnv) (iface : String) (l : List String) :
    addAddrs env iface l = Except.ok () := by
  induction l with
  | nil => rfl
  | cons a rest ih => simp [addAddrs, runCmd_nocheck, ok_bind, ih]

/-- Folding the summary step from any accumulator ignores entries with an
excluded label. -/
theorem summary_foldl_filter (l : List (String × Bool)) :
    ∀ acc : Nat × Nat,
      l.foldl summaryStep acc =
        (l.filter fun tr => !(excluded_tests.contains tr.1)).foldl summaryStep acc := by
  induction l with
  | nil => intro acc; rfl
  | cons tr rest ih =>
      intro acc
      by_cases hm : tr.1 ∈ excluded_tests
      · have hb : excluded_tests.contains tr.1 = true := by simpa using hm
        simp [List.filter_cons, hm, summaryStep, hb, ih]
      · have hb : excluded_tests.contains tr.1 = false := by simpa using hm
        simp [List.filter_cons, hm, summaryStep, hb, ih]

/-- Folding the summary step over a sequence of excluded labels leaves
the accumulator unchanged. -/
theorem summary_foldl_excluded (l : List (String × Bool))
    (h : ∀ tr ∈ l, excluded_tests.contains tr.1 = true) :
    ∀ acc : Nat × Nat, l.foldl summaryStep acc = acc := by
  induction l with
  | nil => intro acc; rfl
  | cons tr rest ih =>
      intro acc
      have htr : excluded_tests.contains tr.1 = true := h tr (by simp)
      have hm : tr.1 ∈ excluded_tests := by simpa using htr
      have hrest : ∀ tr ∈ rest, excluded_tests.contains tr.1 = true :=
        fun x hx => h x (by simp [hx])
      simp [summaryStep, hm, ih hrest]

/-! ## Claim theorems -/

/-- Claim C8: for the netmask input 255.255.255.0 the prefix length
computed by configure_interface, and by main for the static-route phase,
via ipaddress.IPv4Network is 24; for 255.255.255.128 it is 25. -/
theorem netmask_prefixlen_values :
    prefixlenOfNetmask "255.255.255.0" = some 24 ∧
    prefixlenOfNetmask "255.255.255.128" = some 25 := by
  exact ⟨by decide, by decide⟩

/-- Claim C9: for every valid subnet CIDR given to add_loopbacks, the
synthetic interface for that subnet is assigned the address
network-address + 1 at the prefix length of the subnet. -/
theorem add_loopbacks_assigns (subnet name : String) (net : IPv4Net)
    (h : parseCIDR subnet = some net) :
    loopbackCmds name subnet =
      some
        [["ip", "link", "add", "dummy_" ++ name, "type", "dummy"],
         ["ip", "addr", "add",
            ipToString (net.netaddr + 1) ++ "/" ++ toString net.prefixlen,
            "dev", "dummy_" ++ name],
         ["ip", "link", "set", "dev", "dummy_" ++ name, "up"]] := by
  simp [loopbackCmds, h]

/-- Witness for C9 at subnet 10.1.2.0/24: the assigned address is
10.1.2.1/24. -/
theorem add_loopbacks_assigns_witness :
    parseCIDR "10.1.2.0/24" = some ⟨167838208, 24⟩ ∧
    loopbackCmds "mgmt1" "10.1.2.0/24" =
      some
        [["ip", "link", "add", "dummy_mgmt1", "type", "dummy"],
         ["ip", "addr", "add", "10.1.2.1/24", "dev", "dummy_mgmt1"],
         ["ip", "link", "set", "dev", "dummy_mgmt1", "up"]] := by
  refine ⟨by decide, ?_⟩
  rw [add_loopbacks_assigns "10.1.2.0/24" "mgmt1" ⟨167838208, 24⟩ (by decide)]
  decide

/-- Claim C5: print_test_summary computes the same success and total
counters on the full results sequence as on the sequence with every
occurrence of the label Static Default Route Configuration removed -
the excluded label contributes to neither numerator nor denominator,
for 0, 1 or N occurrences, while the sequence itself is left untouched
(print_test_summary only reads it). -/
theorem summary_excludes_static_route (results : List (String × Bool)) :
    summaryCounts results =
      summaryCounts (results.filter fun tr => !(excluded_tests.contains tr.1)) ∧
    excluded_tests = ["Static Default Route Configuration"] :=
  ⟨summary_foldl_filter results (0, 0), rfl⟩

/-- Claim C10: on a results sequence whose non-excluded portion is empty
(only Static Default Route Configuration entries, or the empty sequence)
print_test_summary takes the guarded branch - the division is never
evaluated - and reports a success rate of 0. -/
theorem summary_empty_denominator (results : List (String × Bool))
    (h : ∀ tr ∈ results, tr.1 = "Static Default Route Configuration") :
    (summaryCounts results).2 = 0 ∧ success_rate results = 0 := by
  have hc : ∀ tr ∈ results, excluded_tests.contains tr.1 = true := by
    intro tr htr
    simp [excluded_tests, h tr htr]
  have hz : summaryCounts results = (0, 0) :=
    summary_foldl_excluded results hc (0, 0)
  refine ⟨by simp [hz], ?_⟩
  simp [success_rate, hz]

/-- Witness for C10 on the one-element sequence holding only the
excluded label. -/
theorem summary_empty_denominator_witness :
    (∀ tr ∈ [("Static Default Route Configuration", true)],
        tr.1 = "Static Default Route Configuration") ∧
    (summaryCounts [("Static Default Route Configuration", true)]).2 = 0 ∧
    success_rate [("Static Default Route Configuration", true)] = 0 :=
  ⟨by simp, summary_empty_denominator _ (by simp)⟩

/-- Claim C6: in the per-server lease probe, when the structured relayed
get_lease request completes with a lease, the outcome is recorded as
success at once and the raw broadcast DISCOVER fallback is never crafted
or transmitted for that server. -/
theorem dhcp_lease_success_no_fallback (o1 o2 : Bool) (mac : String) (xid : Nat) :
    (dhcp_probe ⟨true, true, o1, o2, mac, xid⟩).2 = true ∧
    ∀ p : DiscoverPkt,
      DhcpEv.sendDiscover p ∉ (dhcp_probe ⟨true, true, o1, o2, mac, xid⟩).1 := by
  refine ⟨rfl, ?_⟩
  intro p
  simp [dhcp_probe]

/-- Claim C7 (the code defeats it): when the structured request and the
first capture both fail, the probe does draw a fresh transaction id and
craft the raw broadcast DISCOVER, and does start the second time-boxed
capture, but the transmit call raises NameError because sendp is never
imported; the except handler swallows it and the outcome is recorded as
failure unconditionally - even when the second capture observes an offer
(o2 = true) - and no DISCOVER is ever transmitted. -/
theorem dhcp_fallback_name_error (o2 : Bool) (mac : String) (xid : Nat) :
    dhcp_probe ⟨true, false, false, o2, mac, xid⟩ =
      ([DhcpEv.ping, DhcpEv.startCapture, DhcpEv.getLease, DhcpEv.joinCapture,
        DhcpEv.craftDiscover (mkDiscover mac xid), DhcpEv.startCapture,
        DhcpEv.nameError "sendp"], false) ∧
    (mkDiscover mac xid).xid = xid ∧
    (mkDiscover mac xid).etherDst = "ff:ff:ff:ff:ff:ff" ∧
    (mkDiscover mac xid).ipDst = "255.255.255.255" ∧
    (mkDiscover mac xid).msgType = "discover" ∧
    ∀ p : DiscoverPkt,
      DhcpEv.sendDiscover p ∉ (dhcp_probe ⟨true, false, false, o2, mac, xid⟩).1 := by
  refine ⟨rfl, rfl, rfl, rfl, rfl, ?_⟩
  intro p
  simp [dhcp_probe]

/-- Claim C4: the area extracted from a captured hello packet - a string,
possibly in dotted form such as 0.0.0.0 - is returned verbatim by
sniff_ospf_hello and interpolated verbatim into each of the four network
commands configure_ospf issues: no integer coercion anywhere between
observation and configuration. -/
theorem area_passed_verbatim (p : OspfPkt) (rest : List OspfPkt)
    (iface ip : String) (pfx : Nat) (n1 n2 n3 : IPv4Net) :
    sniff_ospf_hello (p :: rest) =
      Except.ok (p.src, p.area, p.hellointerval, p.deadinterval) ∧
    (ospfVtyshCmds iface ip pfx n1 n2 n3 p.area p.hellointerval p.deadinterval)[6]? =
      some ("network " ++ ip ++ "/" ++ toString pfx ++ " area " ++ p.area) ∧
    (ospfVtyshCmds iface ip pfx n1 n2 n3 p.area p.hellointerval p.deadinterval)[8]? =
      some ("network " ++ ipToString n1.netaddr ++ "/" ++ toString n1.prefixlen
              ++ " area " ++ p.area) ∧
    (ospfVtyshCmds iface ip pfx n1 n2 n3 p.area p.hellointerval p.deadinterval)[10]? =
      some ("network " ++ ipToString n2.netaddr ++ "/" ++ toString n2.prefixlen
              ++ " area " ++ p.area) ∧
    (ospfVtyshCmds iface ip pfx n1 n2 n3 p.area p.hellointerval p.deadinterval)[12]? =
      some ("network " ++ ipToString n3.netaddr ++ "/" ++ toString n3.prefixlen
              ++ " area " ++ p.area) :=
  ⟨rfl, rfl, rfl, rfl, rfl⟩

/-- Counterexample to claim C2 as stated: in the environment where the
address flush on eth0 returns a non-zero code, restore_state propagates
the failure to the caller instead of swallowing it - the flush step at
nrt.py:510 runs with check=True, so it is not best-effort. -/
theorem restore_state_raises_cex :
    restore_state flushFailEnv "eth0" sampleState =
      Except.error ["ip", "addr", "flush", "dev", "eth0"] := by
  rfl

/-- Claim C2 amended: restore_state never raises provided the address
flush on the interface succeeds; every other command step runs with
check=False and its failure is ignored. -/
theorem restore_state_ok (env : CmdEnv) (iface : String) (st : HostState)
    (h : env.rc ["ip", "addr", "flush", "dev", iface] = 0) :
    restore_state env iface st = Except.ok () := by
  have hflush : runCmd env ["ip", "addr", "flush", "dev", iface] true =
      Except.ok 0 := by
    simp [runCmd, h]
  cases he : st.addrs.isEmpty <;>
    simp [restore_state, runCmd_nocheck, hflush, he, addAddrs_ok, ok_bind,
      pure_except]

/-- Witness for the amended C2: with every command succeeding,
restore_state completes without raising. -/
theorem restore_state_ok_witness :
    allOkEnv.rc ["ip", "addr", "flush", "dev", "eth0"] = 0 ∧
    restore_state allOkEnv "eth0" sampleState = Except.ok () :=
  ⟨rfl, restore_state_ok allOkEnv "eth0" sampleState rfl⟩

/-- Counterexample to claim C1 as stated: on the fully successful run,
restore_state is attempted three times, not exactly once - twice during
the deliberate aggressive interface reset (nrt.py:1763 and nrt.py:1769)
and once in the finally epilogue (nrt.py:1808). -/
theorem restore_not_exactly_once_cex :
    countRestores (mainRun okRunEnv).1 = 3 ∧
    ¬ countRestores (mainRun okRunEnv).1 = 1 := by
  constructor <;> decide

/-- Claim C1 amended: for every run in which record_state returned,
restore_state is attempted exactly three times - twice in the aggressive
reset at the start of the try block and once in the finally epilogue -
regardless of how the run terminates: normal completion, verification
failure, or a fatal sys.exit in sniff_ospf_hello, configure_ospf or
run_tests; in particular the epilogue restore runs exactly once on every
such path. -/
theorem restore_attempted_three_times (env : RunEnv) :
    countRestores (mainRun env).1 = 3 := by
  obtain ⟨pkts, pings, ipo⟩ := env
  cases pkts with
  | nil => rfl
  | cons p rest =>
      cases h : routerReachable pings <;>
        simp [mainRun, tryEvents, sniff_ospf_hello, countRestores,
          resetAndSetupEvents, h, List.count_cons, List.count_append] <;>
        decide

/-- Claim C3: when no OSPF hello packet is captured within the timeout
(default 60 s), the run is fatal - the process exit code is non-zero,
restore_state is still invoked by the finally epilogue, and
configure_ospf is never attempted. -/
theorem no_hello_fatal (env : RunEnv) (h : env.helloPkts = []) :
    (mainRun env).2 ≠ 0 ∧
    Ev.restoreEv ∈ (mainRun env).1 ∧
    Ev.cfgOspf ∉ (mainRun env).1 ∧
    sniff_ospf_hello_timeout = 60 := by
  obtain ⟨pkts, pings, ipo⟩ := env
  simp only at h
  subst h
  refine ⟨?_, ?_, ?_, rfl⟩
  · simp [mainRun, tryExit, sniff_ospf_hello]
  · simp [mainRun, resetAndSetupEvents, tryEvents, sniff_ospf_hello]
  · simp [mainRun, resetAndSetupEvents, tryEvents, sniff_ospf_hello]

/-- Witness for C3 in the run whose capture returns no packet. -/
theorem no_hello_fatal_witness :
    (mainRun noHelloEnv).2 ≠ 0 ∧
    Ev.restoreEv ∈ (mainRun noHelloEnv).1 ∧
    Ev.cfgOspf ∉ (mainRun noHelloEnv).1 ∧
    sniff_ospf_hello_timeout = 60 :=
  no_hello_fatal noHelloEnv rfl
